import Mathlib

/-!
Shallow embedding of `tools/migrate/migrate.py`: the patch migration
orchestrator.  Python strings are modelled as Lean `String`s, Python string
primitives (`strip`, `splitlines`, `startswith`, `endswith`, `in`,
`partition`, `lower`, lexicographic comparison) are re-implemented
structurally over `List Char` so that every definition evaluates inside the
kernel.  Python code-point comparison of strings coincides with
lexicographic comparison of their `Char` lists.
-/

/-- The ASCII whitespace characters removed by Python `str.strip()`. -/
def isPySpace (c : Char) : Bool :=
  c = ' ' || c = '\t' || c = '\n' || c = '\r' || c = '\x0b' || c = '\x0c'

/-- Python `str.strip()`: remove leading and trailing whitespace. -/
def pyStrip (s : String) : String :=
  String.mk (((s.data.dropWhile isPySpace).reverse.dropWhile isPySpace).reverse)

/-- Split a character list at every newline character (like `splitOn "\n"`). -/
def splitOnNl : List Char → List (List Char)
  | [] => [[]]
  | c :: rest =>
    if c = '\n' then [] :: splitOnNl rest
    else
      match splitOnNl rest with
      | [] => [[c]]
      | l :: ls => (c :: l) :: ls

/-- Python `str.splitlines()` (the files and tool outputs handled by the
script are read in text mode, where `"\n"` is the only line terminator): the
pieces between newlines, without a trailing empty piece when the text ends in
a newline, and `[]` for the empty string. -/
def pySplitLines (s : String) : List String :=
  let parts := splitOnNl s.data
  (match parts.getLast? with
   | some [] => parts.dropLast
   | _ => parts).map String.mk

/-- Python `s.startswith(p)`. -/
def pyStartsWith (s p : String) : Bool :=
  p.data.isPrefixOf s.data

/-- Python `s.endswith(p)`. -/
def pyEndsWith (s p : String) : Bool :=
  p.data.isSuffixOf s.data

/-- Substring test on character lists. -/
def listContainsSub (pat : List Char) : List Char → Bool
  | [] => pat.isEmpty
  | c :: rest => pat.isPrefixOf (c :: rest) || listContainsSub pat rest

/-- Python `pat in s`. -/
def pyIn (pat s : String) : Bool :=
  listContainsSub pat.data s.data

/-- Python `str.lower()` (the inputs matched by the script are ASCII). -/
def pyLower (s : String) : String :=
  String.mk (s.data.map Char.toLower)

/-- Locate the first `'='`: Python `str.partition("=")` without the separator. -/
def breakOnEq : List Char → Option (List Char × List Char)
  | [] => none
  | c :: rest =>
    if c = '=' then some ([], rest)
    else
      match breakOnEq rest with
      | none => none
      | some (a, b) => some (c :: a, b)

/-- Python `line.partition("=")`, keeping the part before the first `'='` and
the part after it (the latter is `""` when there is no `'='`). -/
def pyPartitionEq (s : String) : String × String :=
  match breakOnEq s.data with
  | none => (s, "")
  | some (a, b) => (String.mk a, String.mk b)

/-- Python `a or b` on strings (`""` is falsy). -/
def pyOr (a b : String) : String :=
  if a = "" then b else a

/-- Lexicographic `≤` on character lists by code point: exactly Python's
`<=` on strings. -/
def lexLe : List Char → List Char → Bool
  | [], _ => true
  | _ :: _, [] => false
  | a :: as, b :: bs => if a < b then true else if b < a then false else lexLe as bs

theorem lexLe_total : ∀ as bs, lexLe as bs = true ∨ lexLe bs as = true
  | [], _ => Or.inl rfl
  | _ :: _, [] => Or.inr rfl
  | a :: as, b :: bs => by
    rcases lt_trichotomy a b with h | h | h
    · left; simp [lexLe, h]
    · subst h
      rcases lexLe_total as bs with ih | ih
      · left; simp [lexLe, lt_irrefl, ih]
      · right; simp [lexLe, lt_irrefl, ih]
    · right; simp [lexLe, h]

theorem lexLe_trans : ∀ as bs cs, lexLe as bs = true → lexLe bs cs = true →
    lexLe as cs = true
  | [], _, _, _, _ => rfl
  | _ :: _, [], _, h1, _ => by simp [lexLe] at h1
  | _ :: _, _ :: _, [], _, h2 => by simp [lexLe] at h2
  | a :: as, b :: bs, c :: cs, h1, h2 => by
    simp only [lexLe] at h1 h2 ⊢
    rcases lt_trichotomy a b with hab | hab | hab
    · rw [if_pos hab] at h1
      rcases lt_trichotomy b c with hbc | hbc | hbc
      · rw [if_pos (lt_trans hab hbc)]
      · subst hbc; rw [if_pos hab]
      · rw [if_neg (asymm hbc), if_pos hbc] at h2; exact absurd h2 (by simp)
    · subst hab
      rw [if_neg (lt_irrefl a), if_neg (lt_irrefl a)] at h1
      rcases lt_trichotomy a c with hac | hac | hac
      · rw [if_pos hac]
      · subst hac
        rw [if_neg (lt_irrefl a), if_neg (lt_irrefl a)] at h2 ⊢
        exact lexLe_trans as bs cs h1 h2
      · rw [if_neg (asymm hac), if_pos hac] at h2; exact absurd h2 (by simp)
    · rw [if_neg (asymm hab), if_pos hab] at h1; exact absurd h1 (by simp)

theorem lexLe_antisymm : ∀ as bs, lexLe as bs = true → lexLe bs as = true →
    as = bs
  | [], [], _, _ => rfl
  | [], _ :: _, _, h2 => by simp [lexLe] at h2
  | _ :: _, [], h1, _ => by simp [lexLe] at h1
  | a :: as, b :: bs, h1, h2 => by
    simp only [lexLe] at h1 h2
    rcases lt_trichotomy a b with hab | hab | hab
    · rw [if_neg (asymm hab), if_pos hab] at h2; exact absurd h2 (by simp)
    · subst hab
      rw [if_neg (lt_irrefl a), if_neg (lt_irrefl a)] at h1 h2
      rw [lexLe_antisymm as bs h1 h2]
    · rw [if_neg (asymm hab), if_pos hab] at h1; exact absurd h1 (by simp)

/-- Python `a <= b` on strings (code-point lexicographic). -/
def strLe (a b : String) : Bool :=
  lexLe a.data b.data

/-- `strLe` as a relation, for use with `List.insertionSort` and
`List.Sorted`. -/
def strLeR : String → String → Prop :=
  fun a b => strLe a b = true

instance : DecidableRel strLeR :=
  fun a b => inferInstanceAs (Decidable (strLe a b = true))

instance : IsTotal String strLeR :=
  ⟨fun a b => lexLe_total a.data b.data⟩

instance : IsTrans String strLeR :=
  ⟨fun a b c => lexLe_trans a.data b.data c.data⟩

instance : IsAntisymm String strLeR :=
  ⟨fun a b h1 h2 => by
    cases a; cases b
    exact congrArg String.mk (lexLe_antisymm _ _ h1 h2)⟩

/-- Python `sorted(...)` on a collection of strings. -/
def sortStrings (l : List String) : List String :=
  List.insertionSort strLeR l

/-!
`migrate.py` constants and pure helpers.
-/

/-- `ENTITY_SYNC_MAP` from `migrate.py`: YAML entity key → sync-config entity
name (`none` = server-only, skip sync), in source order. -/
def ENTITY_SYNC_MAP : List (String × Option String) :=
  [("items", some "ItemData"),
   ("equipment", some "EquipmentData"),
   ("evolutions", some "EquipmentEvolutionData"),
   ("materialEnchants", some "MaterialEnchantData"),
   ("enchants", some "EquipmentEnchantData"),
   ("itemStrings", some "StrSheet_Item"),
   ("passivities", none),
   ("cCompensations", none),
   ("eCompensations", none),
   ("fCompensations", none),
   ("iCompensations", none)]

/-- `ENTITY_SYNC_MAP.keys()`, in source order. -/
def entityKeys : List String :=
  ENTITY_SYNC_MAP.map Prod.fst

/-- Python `k in ENTITY_SYNC_MAP` / `ENTITY_SYNC_MAP[k]`: `none` when the key
is absent, `some v` when it maps to `v`. -/
def entitySyncLookup (k : String) : Option (Option String) :=
  (ENTITY_SYNC_MAP.find? (fun p => p.1 = k)).map Prod.snd

/-- `ENTITY_KEY_PATTERN.match(line)`: the regex `^(k₁|…|kₙ):` built from the
keys of `ENTITY_SYNC_MAP` matches `line` iff `line` starts with `kᵢ ++ ":"`
for some `i`, and then `group(1)` is that `kᵢ`.  Since no key contains `':'`,
at most one key can satisfy this for a given line, so taking the first
matching key is exact. -/
def entityKeyMatch (line : String) : Option String :=
  entityKeys.find? (fun k => pyStartsWith line (k ++ ":"))

/-- `detect_entities` from `migrate.py`: scan every line of the spec text and
collect the set of entity keys matched by `ENTITY_KEY_PATTERN` (the Python
`set` is modelled as a duplicate-free list in first-insertion order). -/
def detect_entities (text : String) : List String :=
  (pySplitLines text).foldl
    (fun entities line =>
      match entityKeyMatch line with
      | some k => if k ∈ entities then entities else entities ++ [k]
      | none => entities)
    []

/-- `discover_specs` from `migrate.py`.  The `os.walk` enumeration of the
patch directory is modelled as a list of file paths relative to the patch
directory with `'/'` separators (i.e. already in `Path.relative_to(patch_dir)
.as_posix()` form), in arbitrary filesystem order; a file's name ends in
`".yaml"` iff its relative path does.  The result is the `.yaml` files sorted
by Python's string comparison on those relative paths. -/
def discover_specs (walkFiles : List String) : List String :=
  sortStrings (walkFiles.filter (fun f => pyEndsWith f ".yaml"))

/-- Overwrite-or-append assignment `refs[k] = v` on an association list
modelling a Python dict. -/
def refsSet (refs : List (String × String)) (k v : String) :
    List (String × String) :=
  if refs.any (fun p => p.1 = k) then
    refs.map (fun p => if p.1 = k then (p.1, v) else p)
  else refs ++ [(k, v)]

/-- Python `refs.get(k)` / `refs[k]` on the association list. -/
def refsGet? (refs : List (String × String)) (k : String) : Option String :=
  (refs.find? (fun p => p.1 = k)).map Prod.snd

/-- `load_references` from `migrate.py`, applied to the text of the
`.references` file: skip blank and `#` lines, split each remaining line at
the first `'='`, and record stripped key/value pairs for lines with a
non-empty value part. -/
def load_references (text : String) : List (String × String) :=
  (pySplitLines text).foldl
    (fun refs rawLine =>
      let line := pyStrip rawLine
      if line = "" ∨ pyStartsWith line "#" = true then refs
      else
        let kv := pyPartitionEq line
        if kv.2 ≠ "" then refsSet refs (pyStrip kv.1) (pyStrip kv.2) else refs)
    []

/-- The exit status and captured output of one external tool invocation
(`subprocess.run` with `capture_output=True, text=True`). -/
structure ToolResult where
  returncode : Int
  stdout : String
  stderr : String
deriving Repr, DecidableEq

/-- The shared result handling of `apply_spec` and `run_sync`: strip stdout;
on a non-zero exit status fail with `stderr.strip() or stdout.strip() or
"Unknown error"`, otherwise succeed with the stripped stdout. -/
def toolOutcome (r : ToolResult) : Bool × String :=
  let output := pyStrip r.stdout
  if r.returncode ≠ 0 then
    (false, pyOr (pyStrip r.stderr) (pyOr output "Unknown error"))
  else
    (true, output)

/-- The command list built by `apply_spec` (`[dsl_cli, "apply", rel_path,
"--path", server_datasheet]`, plus `--dry-run` when requested). -/
def applyCmdOf (dsl_cli rel_path server_datasheet : String) (dry_run : Bool) :
    List String :=
  [dsl_cli, "apply", rel_path, "--path", server_datasheet] ++
    (if dry_run then ["--dry-run"] else [])

/-- `apply_spec` from `migrate.py`.  `run` models `subprocess.run`: the
result of executing a command in the external world.  Returns the command
that was invoked together with the `(ok, output)` pair of the Python
function. -/
def apply_spec (run : List String → ToolResult)
    (dsl_cli rel_path server_datasheet : String) (dry_run : Bool) :
    List String × (Bool × String) :=
  let cmd := applyCmdOf dsl_cli rel_path server_datasheet dry_run
  (cmd, toolOutcome (run cmd))

/-- The command list built by `run_sync` (`[dsl_cli, "sync", "--config",
config]`, one `["-e", e]` pair per entity, plus `--dry-run` when
requested). -/
def syncCmdOf (dsl_cli : String) (entities : List String)
    (project_root : String) (dry_run : Bool) : List String :=
  [dsl_cli, "sync", "--config",
      project_root ++ "/reforged/config/sync-config.yaml"] ++
    (entities.map (fun e => ["-e", e])).flatten ++
    (if dry_run then ["--dry-run"] else [])

/-- `run_sync` from `migrate.py`, analogous to `apply_spec`. -/
def run_sync (run : List String → ToolResult) (dsl_cli : String)
    (entities : List String) (project_root : String) (dry_run : Bool) :
    List String × (Bool × String) :=
  let cmd := syncCmdOf dsl_cli entities project_root dry_run
  (cmd, toolOutcome (run cmd))

/-- `count_by_category` from `migrate.py`: count specs whose relative path
contains a `'/'` (loot specs) and those whose path does not (root specs). -/
def count_by_category (specs : List String) : Nat × Nat :=
  specs.foldl
    (fun c rel => if rel.data.contains '/' then (c.1, c.2 + 1) else (c.1 + 1, c.2))
    (0, 0)

/-!
The `main` orchestrator.  The external world (filesystem and subprocesses)
is modelled by `Env`; the observable behaviour of a run (exit code, the
subprocess invocations in order, the lines printed to stdout, and the
accumulated counters of the script) is collected in a `Trace`.
-/

/-- The parsed command-line arguments of `migrate.py`. -/
structure Args where
  patch : String
  dry_run : Bool
  skip_sync : Bool
  verbose : Bool
deriving Repr, DecidableEq

/-- The external world of one run.  `referencesText` is the content of
`reforged/.references` (`none` when the file is missing, in which case
`read_text()` raises `FileNotFoundError`).  `walkFiles` is the `os.walk`
enumeration of the patch directory as paths relative to it with `'/'`
separators, in arbitrary order.  `specText` gives the content of each spec
file, and `run` models `subprocess.run`, mapping a full command line to the
result of executing it.  Paths are joined with `'/'`. -/
structure Env where
  projectRoot : String
  referencesText : Option String
  patchDirExists : Bool
  walkFiles : List String
  specText : String → String
  run : List String → ToolResult

/-- One external tool invocation, with its full command line. -/
inductive Call where
  | applyCall : List String → Call
  | syncCall : List String → Call
deriving Repr, DecidableEq

/-- The observable outcome of a run of `main`: the value returned to
`sys.exit`, the external invocations in the order they were made, the
arguments of the `print` calls in order, and the final values of the
script's accumulators. -/
structure Trace where
  exitCode : Nat
  calls : List Call
  printed : List String
  applied : Nat
  failed : Nat
  failed_specs : List String
  all_entity_keys : List String
deriving Repr, DecidableEq

/-- The state threaded through the per-spec loop of `main`. -/
structure LoopState where
  all_entity_keys : List String
  applied : Nat
  failed : Nat
  failed_specs : List String
  printed : List String
  calls : List Call
deriving Repr, DecidableEq

/-- `all_entity_keys.update(entities)`: the Python `set` is modelled as a
duplicate-free list in first-insertion order, so updating appends the new
elements. -/
def pyUnion (acc ents : List String) : List String :=
  acc ++ ents.filter (fun e => e ∉ acc)

/-- The spec path relative to the project root, as passed to `dsl apply`
(`spec_path.relative_to(project_root)`). -/
def relPathOf (args : Args) (rel : String) : String :=
  "reforged/specs/patches/" ++ args.patch ++ "/" ++ rel

/-- One iteration of the per-spec loop of `main`: print the progress line,
detect and accumulate the spec's entity keys, invoke the apply tool, and
record the outcome (success and failure branches print differently but both
record exactly one apply invocation). -/
def specStep (env : Env) (args : Args) (dsl_cli server_datasheet : String)
    (total : Nat) (st : LoopState) (ispec : Nat × String) : LoopState :=
  let i := ispec.1 + 1
  let rel := ispec.2
  let printed := st.printed ++ [s!"[{i}/{total}] {rel}"]
  let entities := detect_entities (env.specText rel)
  let all_entity_keys := pyUnion st.all_entity_keys entities
  let r := apply_spec env.run dsl_cli (relPathOf args rel) server_datasheet args.dry_run
  let calls := st.calls ++ [Call.applyCall r.1]
  let ok := r.2.1
  let output := r.2.2
  if ok = true then
    let printed := printed ++
      (if args.verbose = true ∧ output ≠ "" then
        (pySplitLines output).map (fun l => "        " ++ l)
      else
        let summary_line :=
          (((pySplitLines output).find?
            (fun l => pyIn "Applied" l || pyIn "operations" (pyLower l))).map
              pyStrip).getD ""
        if summary_line ≠ "" then [s!"        ✓ {summary_line}"]
        else ["        ✓ Applied"])
    { st with
      all_entity_keys := all_entity_keys
      applied := st.applied + 1
      printed := printed
      calls := calls }
  else
    let error_brief :=
      if output ≠ "" then (pySplitLines output).headD "" else "Unknown error"
    let printed := printed ++ [s!"        ✗ Failed — {error_brief}"] ++
      (if args.verbose = true ∧ output ≠ "" then
        ((pySplitLines output).drop 1).map (fun l => "          " ++ l)
      else [])
    { st with
      all_entity_keys := all_entity_keys
      failed := st.failed + 1
      failed_specs := st.failed_specs ++ [rel]
      printed := printed
      calls := calls }

/-- The per-spec loop of `main` (`for i, spec in enumerate(specs, 1)`). -/
def applyPhase (env : Env) (args : Args) (dsl_cli server_datasheet : String)
    (specs : List String) (printed0 : List String) : LoopState :=
  specs.enum.foldl (specStep env args dsl_cli server_datasheet specs.length)
    { all_entity_keys := [], applied := 0, failed := 0, failed_specs := [],
      printed := printed0, calls := [] }

/-- `sorted({ENTITY_SYNC_MAP[k] for k in all_entity_keys if k in
ENTITY_SYNC_MAP and ENTITY_SYNC_MAP[k] is not None})`. -/
def syncable_entities_of (allKeys : List String) : List String :=
  sortStrings ((allKeys.filterMap (fun k => (entitySyncLookup k).getD none)).dedup)

/-- `sorted({k for k in all_entity_keys if k in ENTITY_SYNC_MAP and
ENTITY_SYNC_MAP[k] is None})`. -/
def server_only_keys_of (allKeys : List String) : List String :=
  sortStrings ((allKeys.filter (fun k => entitySyncLookup k = some none)).dedup)

/-- The summary and client-sync tail of `main`, starting right after the
per-spec loop. -/
def syncPhase (env : Env) (args : Args) (dsl_cli : String) (st : LoopState) :
    Trace :=
  let failed := st.failed
  let applied := st.applied
  let fail_note := if failed ≠ 0 then s!" ({failed} failed)" else ""
  let printed := st.printed ++ ["", "── Summary ──", s!"Applied: {applied} specs{fail_note}"]
  let printed := printed ++
    (if st.failed_specs ≠ [] ∧ args.verbose = true then
      st.failed_specs.map (fun fs => s!"  ✗ {fs}")
    else [])
  let syncable_entities := syncable_entities_of st.all_entity_keys
  let server_only_keys := server_only_keys_of st.all_entity_keys
  let joinedSyncable := String.intercalate ", " syncable_entities
  let joinedServerOnly := String.intercalate ", " server_only_keys
  let printed := printed ++
    (if syncable_entities ≠ [] then [s!"Entities modified: {joinedSyncable}"] else []) ++
    (if server_only_keys ≠ [] then [s!"Server-only: {joinedServerOnly} (no sync needed)"] else [])
  if args.skip_sync = true then
    { exitCode := 0, calls := st.calls,
      printed := printed ++ ["\nSync skipped (--skip-sync)"],
      applied := applied, failed := failed, failed_specs := st.failed_specs,
      all_entity_keys := st.all_entity_keys }
  else if syncable_entities = [] then
    { exitCode := 0, calls := st.calls,
      printed := printed ++ ["\nNo syncable entities — nothing to sync"],
      applied := applied, failed := failed, failed_specs := st.failed_specs,
      all_entity_keys := st.all_entity_keys }
  else
    let printed := printed ++ ["", "── Client Sync ──", s!"Syncing: {joinedSyncable}"]
    let r := run_sync env.run dsl_cli syncable_entities env.projectRoot args.dry_run
    let calls := st.calls ++ [Call.syncCall r.1]
    let ok := r.2.1
    let output := r.2.2
    if ok = true then
      { exitCode := 0, calls := calls,
        printed := printed ++ ["✓ Sync complete"] ++
          (if args.verbose = true ∧ output ≠ "" then
            (pySplitLines output).map (fun l => "  " ++ l)
          else []),
        applied := applied, failed := failed, failed_specs := st.failed_specs,
        all_entity_keys := st.all_entity_keys }
    else
      { exitCode := 1, calls := calls,
        printed := printed ++ [s!"✗ Sync failed — {output}"],
        applied := applied, failed := failed, failed_specs := st.failed_specs,
        all_entity_keys := st.all_entity_keys }

/-- The trace of a run killed by an uncaught exception (`FileNotFoundError`
from `read_text`, or `KeyError` from `refs["server_datasheet"]`): CPython
exits with status 1, no subprocess was started, and nothing was printed to
stdout (the traceback goes to stderr). -/
def crashTrace : Trace :=
  { exitCode := 1, calls := [], printed := [], applied := 0, failed := 0,
    failed_specs := [], all_entity_keys := [] }

/-- The header lines printed before the per-spec loop. -/
def headerPrinted (args : Args) (specs : List String) : List String :=
  let counts := count_by_category specs
  let root_count := counts.1
  let loot_count := counts.2
  let total := specs.length
  let header_parts :=
    (if root_count ≠ 0 then [s!"{root_count} specs"] else []) ++
    (if loot_count ≠ 0 then [s!"{loot_count} loot specs"] else [])
  let joined := String.intercalate " + " header_parts
  let patch := args.patch
  [s!"Patch {patch} — {joined} ({total} total)"] ++
    (if args.dry_run = true then ["(dry-run mode)"] else []) ++ [""]

/-- `main` from `migrate.py` as a function from the external world and the
parsed arguments to the observable trace of the run. -/
def mainRun (env : Env) (args : Args) : Trace :=
  match env.referencesText with
  | none => crashTrace
  | some refText =>
    let refs := load_references refText
    let dsl_cli := (refsGet? refs "dsl_cli").getD (env.projectRoot ++ "/dsl.exe")
    match refsGet? refs "server_datasheet" with
    | none => crashTrace
    | some server_datasheet =>
      let patch_dir := env.projectRoot ++ "/reforged/specs/patches/" ++ args.patch
      if env.patchDirExists = false then
        { crashTrace with printed := ["Error: Patch directory not found: " ++ patch_dir] }
      else
        let specs := discover_specs env.walkFiles
        if specs = [] then
          { crashTrace with printed := ["Error: No .yaml specs found in " ++ patch_dir] }
        else
          syncPhase env args dsl_cli
            (applyPhase env args dsl_cli server_datasheet specs
              (headerPrinted args specs))

/-!
Derived observables of a run, used to state the specification claims.
-/

/-- The resolved apply/sync executable (`refs.get("dsl_cli", str(project_root
/ "dsl.exe"))`). -/
def dslCliOf (env : Env) : String :=
  (refsGet? (load_references (env.referencesText.getD "")) "dsl_cli").getD
    (env.projectRoot ++ "/dsl.exe")

/-- The resolved server datasheet path (`refs["server_datasheet"]`), when
present. -/
def serverDatasheetOf (env : Env) : Option String :=
  refsGet? (load_references (env.referencesText.getD "")) "server_datasheet"

/-- Whether a run on this external world reaches the per-spec apply loop:
the references file exists, the `server_datasheet` key is present, the patch
directory exists and at least one spec was discovered. -/
def reachesApplyPhase (env : Env) : Bool :=
  env.referencesText.isSome && (serverDatasheetOf env).isSome &&
    env.patchDirExists && !(discover_specs env.walkFiles).isEmpty

/-- The apply command a run on `env` with `args` issues for the spec at
relative path `rel`. -/
def applyCmdFor (env : Env) (args : Args) (rel : String) : List String :=
  applyCmdOf (dslCliOf env) (relPathOf args rel)
    ((serverDatasheetOf env).getD "") args.dry_run

/-- The union (in first-insertion order) of the entity keys detected across
a list of specs. -/
def allDetectedKeys (specs : List String) (text : String → String) :
    List String :=
  specs.foldl (fun acc s => pyUnion acc (detect_entities (text s))) []

/-- The deduplicated, sorted set of sync targets implied by the entity keys
detected across all discovered specs of a run. -/
def syncTargets (env : Env) : List String :=
  syncable_entities_of (allDetectedKeys (discover_specs env.walkFiles) env.specText)

/-- The sync command a run on `env` with `args` issues when sync runs. -/
def syncCmdFor (env : Env) (args : Args) : List String :=
  syncCmdOf (dslCliOf env) (syncTargets env) env.projectRoot args.dry_run

/-- The number of sync-tool invocations in a list of calls. -/
def countSyncCalls (calls : List Call) : Nat :=
  (calls.filter (fun c => match c with
    | Call.syncCall _ => true
    | Call.applyCall _ => false)).length

/-- Append `--dry-run` to an invocation's command line. -/
def pushDry : Call → Call
  | Call.applyCall c => Call.applyCall (c ++ ["--dry-run"])
  | Call.syncCall c => Call.syncCall (c ++ ["--dry-run"])

/-!
Structural lemmas about `mainRun`.
-/

theorem mainRun_eq_phases (env : Env) (args : Args)
    (h : reachesApplyPhase env = true) :
    mainRun env args =
      syncPhase env args (dslCliOf env)
        (applyPhase env args (dslCliOf env) ((serverDatasheetOf env).getD "")
          (discover_specs env.walkFiles)
          (headerPrinted args (discover_specs env.walkFiles))) := by
  unfold reachesApplyPhase at h
  cases hre : env.referencesText with
  | none => rw [hre] at h; simp at h
  | some t =>
    rw [hre] at h
    unfold serverDatasheetOf at h ⊢
    rw [hre] at h ⊢
    cases hsd : refsGet? (load_references (Option.getD (some t) "")) "server_datasheet" with
    | none => rw [hsd] at h; simp at h
    | some sd =>
      rw [hsd] at h
      simp only [Option.isSome_some, Bool.true_and, Bool.and_eq_true,
        Bool.not_eq_true', List.isEmpty_eq_false] at h
      obtain ⟨hdir, hspecs⟩ := h
      unfold mainRun
      rw [hre]
      simp only [Option.getD_some] at hsd ⊢
      rw [hsd, hdir]
      simp only [if_neg (by simp : ¬ (true = false))]
      rw [if_neg hspecs]
      unfold dslCliOf
      rw [hre]
      rfl

theorem toolOutcome_fst (r : ToolResult) :
    (toolOutcome r).1 = true ↔ r.returncode = 0 := by
  unfold toolOutcome
  dsimp only
  split
  · next h => simp [h]
  · next h => simp at h; simp [h]

theorem toolOutcome_snd (r : ToolResult) (h : r.returncode ≠ 0) :
    (toolOutcome r).2 =
      (if pyStrip r.stderr ≠ "" then pyStrip r.stderr
       else if pyStrip r.stdout ≠ "" then pyStrip r.stdout
       else "Unknown error") := by
  unfold toolOutcome pyOr
  rw [if_pos h]
  dsimp only
  by_cases h1 : pyStrip r.stderr = "" <;> by_cases h2 : pyStrip r.stdout = "" <;>
    simp [h1, h2]

theorem specStep_calls (env : Env) (args : Args) (c s : String) (total : Nat)
    (st : LoopState) (p : Nat × String) :
    (specStep env args c s total st p).calls =
      st.calls ++ [Call.applyCall (applyCmdOf c (relPathOf args p.2) s args.dry_run)] := by
  unfold specStep apply_spec
  dsimp only
  split <;> rfl

theorem specStep_entities (env : Env) (args : Args) (c s : String) (total : Nat)
    (st : LoopState) (p : Nat × String) :
    (specStep env args c s total st p).all_entity_keys =
      pyUnion st.all_entity_keys (detect_entities (env.specText p.2)) := by
  unfold specStep apply_spec
  dsimp only
  split <;> rfl

theorem foldl_specStep_calls (env : Env) (args : Args) (c s : String)
    (total : Nat) :
    ∀ (l : List (Nat × String)) (st : LoopState),
    (l.foldl (specStep env args c s total) st).calls =
      st.calls ++
        l.map (fun p => Call.applyCall (applyCmdOf c (relPathOf args p.2) s args.dry_run))
  | [], st => by simp
  | p :: l, st => by
    rw [List.foldl_cons, foldl_specStep_calls env args c s total l,
      specStep_calls, List.map_cons, List.append_assoc]
    rfl

theorem foldl_specStep_entities (env : Env) (args : Args) (c s : String)
    (total : Nat) :
    ∀ (l : List (Nat × String)) (st : LoopState),
    (l.foldl (specStep env args c s total) st).all_entity_keys =
      (l.map Prod.snd).foldl
        (fun acc sp => pyUnion acc (detect_entities (env.specText sp)))
        st.all_entity_keys
  | [], _ => rfl
  | p :: l, st => by
    rw [List.foldl_cons, foldl_specStep_entities env args c s total l,
      List.map_cons, List.foldl_cons, specStep_entities]

theorem applyPhase_calls (env : Env) (args : Args) (c s : String)
    (specs : List String) (printed0 : List String) :
    (applyPhase env args c s specs printed0).calls =
      specs.map (fun rel => Call.applyCall (applyCmdOf c (relPathOf args rel) s args.dry_run)) := by
  unfold applyPhase
  rw [foldl_specStep_calls]
  have h : specs.enum.map
      (fun p => Call.applyCall (applyCmdOf c (relPathOf args p.2) s args.dry_run)) =
      (specs.enum.map Prod.snd).map
        (fun rel => Call.applyCall (applyCmdOf c (relPathOf args rel) s args.dry_run)) := by
    rw [List.map_map]
    rfl
  rw [h, List.enum_map_snd]
  rfl

theorem applyPhase_entities (env : Env) (args : Args) (c s : String)
    (specs : List String) (printed0 : List String) :
    (applyPhase env args c s specs printed0).all_entity_keys =
      allDetectedKeys specs env.specText := by
  unfold applyPhase allDetectedKeys
  rw [foldl_specStep_entities, List.enum_map_snd]

theorem syncPhase_calls (env : Env) (args : Args) (c : String) (st : LoopState) :
    (syncPhase env args c st).calls =
      st.calls ++
        (if args.skip_sync = false ∧ syncable_entities_of st.all_entity_keys ≠ [] then
          [Call.syncCall
            (syncCmdOf c (syncable_entities_of st.all_entity_keys)
              env.projectRoot args.dry_run)]
        else []) := by
  unfold syncPhase run_sync
  dsimp only
  by_cases hs : args.skip_sync = true
  · rw [if_pos hs]
    simp [hs]
  · have hs' : args.skip_sync = false := by revert hs; cases args.skip_sync <;> simp
    rw [if_neg hs]
    by_cases he : syncable_entities_of st.all_entity_keys = []
    · rw [if_pos he]
      simp [he]
    · rw [if_neg he]
      split <;> simp [hs', he]

theorem syncPhase_exitCode (env : Env) (args : Args) (c : String) (st : LoopState) :
    (syncPhase env args c st).exitCode =
      (if args.skip_sync = false ∧ syncable_entities_of st.all_entity_keys ≠ [] ∧
          (env.run (syncCmdOf c (syncable_entities_of st.all_entity_keys)
            env.projectRoot args.dry_run)).returncode ≠ 0
       then 1 else 0) := by
  unfold syncPhase run_sync
  dsimp only
  by_cases hs : args.skip_sync = true
  · rw [if_pos hs]
    simp [hs]
  · have hs' : args.skip_sync = false := by revert hs; cases args.skip_sync <;> simp
    rw [if_neg hs]
    by_cases he : syncable_entities_of st.all_entity_keys = []
    · rw [if_pos he]
      simp [he]
    · rw [if_neg he]
      by_cases hok : (toolOutcome (env.run (syncCmdOf c
          (syncable_entities_of st.all_entity_keys) env.projectRoot
          args.dry_run))).1 = true
    
      · rw [if_pos hok]
        have hrc := (toolOutcome_fst _).mp hok
        simp [hs', he, hrc]
      · rw [if_neg hok]
        have hrc : (env.run (syncCmdOf c (syncable_entities_of st.all_entity_keys)
            env.projectRoot args.dry_run)).returncode ≠ 0 := by
          intro hzero
          exact hok ((toolOutcome_fst _).mpr hzero)
        simp [hs', he, hrc]

theorem syncPhase_applied (env : Env) (args : Args) (c : String) (st : LoopState) :
    (syncPhase env args c st).applied = st.applied := by
  unfold syncPhase run_sync
  dsimp only
  split
  · rfl
  · split
    · rfl
    · split <;> rfl

theorem syncPhase_failed (env : Env) (args : Args) (c : String) (st : LoopState) :
    (syncPhase env args c st).failed = st.failed := by
  unfold syncPhase run_sync
  dsimp only
  split
  · rfl
  · split
    · rfl
    · split <;> rfl

theorem syncPhase_failed_specs (env : Env) (args : Args) (c : String) (st : LoopState) :
    (syncPhase env args c st).failed_specs = st.failed_specs := by
  unfold syncPhase run_sync
  dsimp only
  split
  · rfl
  · split
    · rfl
    · split <;> rfl

theorem syncPhase_entities (env : Env) (args : Args) (c : String) (st : LoopState) :
    (syncPhase env args c st).all_entity_keys = st.all_entity_keys := by
  unfold syncPhase run_sync
  dsimp only
  split
  · rfl
  · split
    · rfl
    · split <;> rfl

theorem syncPhase_printed_skip (env : Env) (args : Args) (c : String)
    (st : LoopState) (h : args.skip_sync = true) :
    "\nSync skipped (--skip-sync)" ∈ (syncPhase env args c st).printed := by
  unfold syncPhase
  dsimp only
  rw [if_pos h]
  exact List.mem_append_right _ (List.mem_singleton.mpr rfl)

theorem syncPhase_printed_nothing (env : Env) (args : Args) (c : String)
    (st : LoopState) (h : args.skip_sync = false)
    (he : syncable_entities_of st.all_entity_keys = []) :
    "\nNo syncable entities — nothing to sync" ∈ (syncPhase env args c st).printed := by
  unfold syncPhase
  dsimp only
  rw [if_neg (by simp [h]), if_pos he]
  exact List.mem_append_right _ (List.mem_singleton.mpr rfl)

/-!
Properties of `detect_entities`, `discover_specs` and the entity-key union.
-/

theorem str_data_append (s t : String) : (s ++ t).data = s.data ++ t.data := by
  cases s; cases t; rfl

theorem colon_free_keys : ∀ k ∈ entityKeys, ':' ∉ k.data := by
  intro k hk
  fin_cases hk <;> decide

theorem append_colon_prefix_eq {a b t : List Char} (hb : ':' ∉ b)
    (ht : a ++ ':' :: t = b ++ [':']) : a = b := by
  rcases List.eq_nil_or_concat t with rfl | ⟨t', x, rfl⟩
  · exact (List.append_inj' ht rfl).1
  · have h2 : (a ++ ':' :: t') ++ [x] = b ++ [':'] := by
      rw [List.append_assoc]
      simpa using ht
    exfalso
    apply hb
    rw [← (List.append_inj' h2 rfl).1]
    exact List.mem_append_right _ (List.mem_cons_self _ _)

theorem prefix_colon_unique {k1 k2 line : String}
    (h1k : k1 ∈ entityKeys) (h2k : k2 ∈ entityKeys)
    (h1 : pyStartsWith line (k1 ++ ":") = true)
    (h2 : pyStartsWith line (k2 ++ ":") = true) : k1 = k2 := by
  have d1 : (k1 ++ ":").data <+: line.data := List.isPrefixOf_iff_prefix.mp h1
  have d2 : (k2 ++ ":").data <+: line.data := List.isPrefixOf_iff_prefix.mp h2
  rw [str_data_append] at d1 d2
  have hdata : k1.data = k2.data := by
    rcases List.prefix_or_prefix_of_prefix d1 d2 with hp | hp
    · obtain ⟨t, ht⟩ := hp
      rw [List.append_assoc] at ht
      exact append_colon_prefix_eq (colon_free_keys k2 h2k) (by simpa using ht)
    · obtain ⟨t, ht⟩ := hp
      rw [List.append_assoc] at ht
      exact (append_colon_prefix_eq (colon_free_keys k1 h1k) (by simpa using ht)).symm
  cases k1; cases k2
  exact congrArg String.mk hdata

theorem entityKeyMatch_eq_some {line k : String} :
    entityKeyMatch line = some k ↔
      k ∈ entityKeys ∧ pyStartsWith line (k ++ ":") = true := by
  constructor
  · intro h
    unfold entityKeyMatch at h
    refine ⟨List.mem_of_find?_eq_some h, ?_⟩
    have hp := List.find?_some h
    simpa using hp
  · rintro ⟨hk, hp⟩
    cases hfind : entityKeyMatch line with
    | none =>
      unfold entityKeyMatch at hfind
      have := List.find?_eq_none.mp hfind k hk
      simp [hp] at this
    | some k2 =>
      have hfind2 := hfind
      unfold entityKeyMatch at hfind2
      have hk2 : k2 ∈ entityKeys := List.mem_of_find?_eq_some hfind2
      have hp2 : pyStartsWith line (k2 ++ ":") = true := by
        have := List.find?_some hfind2
        simpa using this
      rw [prefix_colon_unique hk2 hk hp2 hp]

theorem detect_entities_foldl_mem (e : String) :
    ∀ (lines : List String) (acc : List String),
    (e ∈ lines.foldl
        (fun entities line =>
          match entityKeyMatch line with
          | some k => if k ∈ entities then entities else entities ++ [k]
          | none => entities)
        acc ↔
      e ∈ acc ∨ ∃ line ∈ lines, entityKeyMatch line = some e)
  | [], acc => by simp
  | l :: ls, acc => by
    rw [List.foldl_cons]
    cases hm : entityKeyMatch l with
    | none =>
      rw [detect_entities_foldl_mem e ls acc]
      simp only [List.exists_mem_cons_iff, hm]
      constructor
      · intro h
        rcases h with h | h
        · exact Or.inl h
        · exact Or.inr (Or.inr h)
      · intro h
        rcases h with h | h | h
        · exact Or.inl h
        · simp at h
        · exact Or.inr h
    | some k =>
      dsimp only
      by_cases hk : k ∈ acc
      · rw [if_pos hk, detect_entities_foldl_mem e ls acc]
        simp only [List.exists_mem_cons_iff, hm, Option.some_inj]
        constructor
        · intro h
          rcases h with h | h
          · exact Or.inl h
          · exact Or.inr (Or.inr h)
        · intro h
          rcases h with h | h | h
          · exact Or.inl h
          · subst h; exact Or.inl hk
          · exact Or.inr h
      · rw [if_neg hk, detect_entities_foldl_mem e ls (acc ++ [k])]
        simp only [List.exists_mem_cons_iff, hm, Option.some_inj,
          List.mem_append, List.mem_singleton]
        constructor
        · intro h
          rcases h with (h | h) | h
          · exact Or.inl h
          · exact Or.inr (Or.inl h.symm)
          · exact Or.inr (Or.inr h)
        · intro h
          rcases h with h | h | h
          · exact Or.inl (Or.inl h)
          · exact Or.inl (Or.inr h.symm)
          · exact Or.inr h

theorem detect_entities_mem {text e : String} :
    e ∈ detect_entities text ↔
      ∃ line ∈ pySplitLines text, entityKeyMatch line = some e := by
  unfold detect_entities
  rw [detect_entities_foldl_mem]
  simp

theorem pyUnion_mem {acc ents : List String} {e : String} :
    e ∈ pyUnion acc ents ↔ e ∈ acc ∨ e ∈ ents := by
  unfold pyUnion
  rw [List.mem_append, List.mem_filter]
  by_cases h : e ∈ acc <;> simp [h]

theorem foldl_pyUnion_mem (text : String → String) (e : String) :
    ∀ (l : List String) (acc : List String),
    (e ∈ l.foldl (fun acc s => pyUnion acc (detect_entities (text s))) acc ↔
      e ∈ acc ∨ ∃ s ∈ l, e ∈ detect_entities (text s))
  | [], acc => by simp
  | s :: l, acc => by
    rw [List.foldl_cons, foldl_pyUnion_mem text e l (pyUnion acc (detect_entities (text s)))]
    rw [pyUnion_mem]
    simp only [List.exists_mem_cons_iff]
    constructor
    · intro h
      rcases h with (h | h) | h
      · exact Or.inl h
      · exact Or.inr (Or.inl h)
      · exact Or.inr (Or.inr h)
    · intro h
      rcases h with h | h | h
      · exact Or.inl (Or.inl h)
      · exact Or.inl (Or.inr h)
      · exact Or.inr h

theorem allDetectedKeys_mem {specs : List String} {text : String → String}
    {e : String} :
    e ∈ allDetectedKeys specs text ↔ ∃ s ∈ specs, e ∈ detect_entities (text s) := by
  unfold allDetectedKeys
  rw [foldl_pyUnion_mem]
  simp

theorem sortStrings_perm (l : List String) : (sortStrings l).Perm l :=
  List.perm_insertionSort strLeR l

theorem sortStrings_sorted (l : List String) : List.Sorted strLeR (sortStrings l) :=
  List.sorted_insertionSort strLeR l

theorem sortStrings_eq_of_perm {l1 l2 : List String} (h : l1.Perm l2) :
    sortStrings l1 = sortStrings l2 :=
  List.eq_of_perm_of_sorted
    ((sortStrings_perm l1).trans (h.trans (sortStrings_perm l2).symm))
    (sortStrings_sorted l1) (sortStrings_sorted l2)

theorem discover_specs_perm_invariant {l1 l2 : List String} (h : l1.Perm l2) :
    discover_specs l1 = discover_specs l2 :=
  sortStrings_eq_of_perm (h.filter _)

theorem discover_specs_mem {l : List String} {f : String} :
    f ∈ discover_specs l ↔ f ∈ l ∧ pyEndsWith f ".yaml" = true := by
  unfold discover_specs
  rw [(sortStrings_perm _).mem_iff, List.mem_filter]

theorem discover_specs_sorted (l : List String) :
    List.Sorted strLeR (discover_specs l) :=
  sortStrings_sorted _

/-!
Observable behaviour of `mainRun`.
-/

theorem mainRun_calls (env : Env) (args : Args)
    (h : reachesApplyPhase env = true) :
    (mainRun env args).calls =
      (discover_specs env.walkFiles).map
        (fun rel => Call.applyCall (applyCmdFor env args rel)) ++
        (if args.skip_sync = false ∧ syncTargets env ≠ [] then
          [Call.syncCall (syncCmdFor env args)]
        else []) := by
  rw [mainRun_eq_phases env args h, syncPhase_calls, applyPhase_calls,
    applyPhase_entities]
  rfl

theorem mainRun_exitCode (env : Env) (args : Args)
    (h : reachesApplyPhase env = true) :
    (mainRun env args).exitCode =
      (if args.skip_sync = false ∧ syncTargets env ≠ [] ∧
          (env.run (syncCmdFor env args)).returncode ≠ 0
       then 1 else 0) := by
  rw [mainRun_eq_phases env args h, syncPhase_exitCode, applyPhase_entities]
  rfl

theorem mainRun_entities (env : Env) (args : Args)
    (h : reachesApplyPhase env = true) :
    (mainRun env args).all_entity_keys =
      allDetectedKeys (discover_specs env.walkFiles) env.specText := by
  rw [mainRun_eq_phases env args h, syncPhase_entities, applyPhase_entities]

theorem mainRun_refs_missing (env : Env) (args : Args)
    (h : env.referencesText = none) : mainRun env args = crashTrace := by
  unfold mainRun
  rw [h]

theorem mainRun_sd_missing (env : Env) (args : Args) {t : String}
    (h : env.referencesText = some t)
    (h2 : refsGet? (load_references t) "server_datasheet" = none) :
    mainRun env args = crashTrace := by
  unfold mainRun
  rw [h]
  dsimp only
  rw [h2]

theorem mainRun_no_patch_dir (env : Env) (args : Args) {t sd : String}
    (h : env.referencesText = some t)
    (h2 : refsGet? (load_references t) "server_datasheet" = some sd)
    (h3 : env.patchDirExists = false) :
    mainRun env args =
      { crashTrace with
        printed := ["Error: Patch directory not found: " ++
          (env.projectRoot ++ "/reforged/specs/patches/" ++ args.patch)] } := by
  unfold mainRun
  rw [h]
  dsimp only
  rw [h2]
  dsimp only
  rw [h3]
  rfl

theorem mainRun_no_specs (env : Env) (args : Args) {t sd : String}
    (h : env.referencesText = some t)
    (h2 : refsGet? (load_references t) "server_datasheet" = some sd)
    (h3 : env.patchDirExists = true)
    (h4 : discover_specs env.walkFiles = []) :
    mainRun env args =
      { crashTrace with
        printed := ["Error: No .yaml specs found in " ++
          (env.projectRoot ++ "/reforged/specs/patches/" ++ args.patch)] } := by
  unfold mainRun
  rw [h]
  dsimp only
  rw [h2]
  dsimp only
  rw [h3]
  rw [if_neg (by simp : ¬ (true = false))]
  rw [if_pos h4]

/-!
Dry-run invariance: relating a run with `--dry-run` to its twin without.
-/

/-- Relation between the loop state of a dry run and of its twin without
`--dry-run`: everything the control flow depends on is equal, and the
recorded commands differ exactly by the trailing `--dry-run` argument. -/
def DryRel (std stn : LoopState) : Prop :=
  std.all_entity_keys = stn.all_entity_keys ∧ std.applied = stn.applied ∧
  std.failed = stn.failed ∧ std.failed_specs = stn.failed_specs ∧
  std.calls = stn.calls.map pushDry

theorem applyCmdOf_dry (c rel s : String) :
    applyCmdOf c rel s true = applyCmdOf c rel s false ++ ["--dry-run"] := by
  simp [applyCmdOf]

theorem syncCmdOf_dry (c : String) (es : List String) (root : String) :
    syncCmdOf c es root true = syncCmdOf c es root false ++ ["--dry-run"] := by
  simp [syncCmdOf]

theorem specStep_dry (env : Env) (args : Args) (c s : String) (total : Nat)
    (hrun : ∀ cmd, env.run (cmd ++ ["--dry-run"]) = env.run cmd)
    (std stn : LoopState) (hR : DryRel std stn) (p : Nat × String) :
    DryRel (specStep env { args with dry_run := true } c s total std p)
      (specStep env { args with dry_run := false } c s total stn p) := by
  obtain ⟨h1, h2, h3, h4, h5⟩ := hR
  unfold specStep apply_spec relPathOf
  dsimp only
  rw [applyCmdOf_dry, hrun]
  by_cases hok : (toolOutcome (env.run
      (applyCmdOf c ("reforged/specs/patches/" ++ args.patch ++ "/" ++ p.2) s
        false))).1 = true
  · simp only [if_pos hok]
    refine ⟨?_, ?_, ?_, ?_, ?_⟩ <;> dsimp only
    · rw [h1]
    · rw [h2]
    · rw [h3]
    · rw [h4]
    · rw [h5]; simp [pushDry]
  · simp only [if_neg hok]
    refine ⟨?_, ?_, ?_, ?_, ?_⟩ <;> dsimp only
    · rw [h1]
    · rw [h2]
    · rw [h3]
    · rw [h4]
    · rw [h5]; simp [pushDry]

theorem foldl_specStep_dry (env : Env) (args : Args) (c s : String)
    (total : Nat)
    (hrun : ∀ cmd, env.run (cmd ++ ["--dry-run"]) = env.run cmd) :
    ∀ (l : List (Nat × String)) (std stn : LoopState), DryRel std stn →
    DryRel (l.foldl (specStep env { args with dry_run := true } c s total) std)
      (l.foldl (specStep env { args with dry_run := false } c s total) stn)
  | [], _, _, hR => hR
  | p :: l, std, stn, hR => by
    rw [List.foldl_cons, List.foldl_cons]
    exact foldl_specStep_dry env args c s total hrun l _ _
      (specStep_dry env args c s total hrun std stn hR p)

theorem applyPhase_dry (env : Env) (args : Args) (c s : String)
    (specs : List String) (pr1 pr2 : List String)
    (hrun : ∀ cmd, env.run (cmd ++ ["--dry-run"]) = env.run cmd) :
    DryRel (applyPhase env { args with dry_run := true } c s specs pr1)
      (applyPhase env { args with dry_run := false } c s specs pr2) := by
  unfold applyPhase
  exact foldl_specStep_dry env args c s specs.length hrun specs.enum _ _
    ⟨rfl, rfl, rfl, rfl, rfl⟩

theorem syncPhase_dry (env : Env) (args : Args) (c : String)
    (std stn : LoopState) (hR : DryRel std stn)
    (hrun : ∀ cmd, env.run (cmd ++ ["--dry-run"]) = env.run cmd) :
    (syncPhase env { args with dry_run := true } c std).exitCode =
      (syncPhase env { args with dry_run := false } c stn).exitCode ∧
    (syncPhase env { args with dry_run := true } c std).applied =
      (syncPhase env { args with dry_run := false } c stn).applied ∧
    (syncPhase env { args with dry_run := true } c std).failed =
      (syncPhase env { args with dry_run := false } c stn).failed ∧
    (syncPhase env { args with dry_run := true } c std).failed_specs =
      (syncPhase env { args with dry_run := false } c stn).failed_specs ∧
    (syncPhase env { args with dry_run := true } c std).all_entity_keys =
      (syncPhase env { args with dry_run := false } c stn).all_entity_keys ∧
    (syncPhase env { args with dry_run := true } c std).calls =
      (syncPhase env { args with dry_run := false } c stn).calls.map pushDry := by
  obtain ⟨h1, h2, h3, h4, h5⟩ := hR
  refine ⟨?_, ?_, ?_, ?_, ?_, ?_⟩
  · rw [syncPhase_exitCode, syncPhase_exitCode, h1]
    have : ({ args with dry_run := true } : Args).dry_run = true := rfl
    rw [this]
    have : ({ args with dry_run := false } : Args).dry_run = false := rfl
    rw [this]
    rw [syncCmdOf_dry, hrun]
  · rw [syncPhase_applied, syncPhase_applied, h2]
  · rw [syncPhase_failed, syncPhase_failed, h3]
  · rw [syncPhase_failed_specs, syncPhase_failed_specs, h4]
  · rw [syncPhase_entities, syncPhase_entities, h1]
  · rw [syncPhase_calls, syncPhase_calls, h1, h5]
    have : ({ args with dry_run := true } : Args).dry_run = true := rfl
    rw [this]
    have : ({ args with dry_run := false } : Args).dry_run = false := rfl
    rw [this]
    rw [syncCmdOf_dry]
    split
    · simp [pushDry]
    · simp

theorem mainRun_indep_args_not_reach (env : Env) (a1 a2 : Args)
    (hp : a1.patch = a2.patch) (h : reachesApplyPhase env = false) :
    mainRun env a1 = mainRun env a2 := by
  cases href : env.referencesText with
  | none => rw [mainRun_refs_missing env a1 href, mainRun_refs_missing env a2 href]
  | some t =>
    cases hsd : refsGet? (load_references t) "server_datasheet" with
    | none => rw [mainRun_sd_missing env a1 href hsd, mainRun_sd_missing env a2 href hsd]
    | some sd =>
      cases hdir : env.patchDirExists with
      | false =>
        rw [mainRun_no_patch_dir env a1 href hsd hdir,
          mainRun_no_patch_dir env a2 href hsd hdir, hp]
      | true =>
        cases hspecs : discover_specs env.walkFiles with
        | nil =>
          rw [mainRun_no_specs env a1 href hsd hdir hspecs,
            mainRun_no_specs env a2 href hsd hdir hspecs, hp]
        | cons a l =>
          exfalso
          have : reachesApplyPhase env = true := by
            unfold reachesApplyPhase serverDatasheetOf
            rw [href, hdir, hspecs]
            simp only [Option.getD_some] at hsd ⊢
            rw [hsd]
            rfl
          rw [this] at h
          simp at h

theorem mainRun_not_reach_calls (env : Env) (args : Args)
    (h : reachesApplyPhase env = false) : (mainRun env args).calls = [] := by
  cases href : env.referencesText with
  | none => rw [mainRun_refs_missing env args href]; rfl
  | some t =>
    cases hsd : refsGet? (load_references t) "server_datasheet" with
    | none => rw [mainRun_sd_missing env args href hsd]; rfl
    | some sd =>
      cases hdir : env.patchDirExists with
      | false => rw [mainRun_no_patch_dir env args href hsd hdir]; rfl
      | true =>
        cases hspecs : discover_specs env.walkFiles with
        | nil => rw [mainRun_no_specs env args href hsd hdir hspecs]; rfl
        | cons a l =>
          exfalso
          have : reachesApplyPhase env = true := by
            unfold reachesApplyPhase serverDatasheetOf
            rw [href, hdir, hspecs]
            simp only [Option.getD_some] at hsd ⊢
            rw [hsd]
            rfl
          rw [this] at h
          simp at h

/-!
Concrete worlds and argument vectors used by witnesses and the
counterexample.
-/

/-- Concrete arguments: sync skipped by request. -/
def argsSkip : Args :=
  { patch := "p1", dry_run := false, skip_sync := true, verbose := false }

/-- Concrete arguments: sync enabled. -/
def argsRun : Args :=
  { patch := "p1", dry_run := false, skip_sync := false, verbose := false }

/-- A concrete external world with two specs; the apply invocation for
`02-evolutions.yaml` exits non-zero, every other invocation (including sync)
succeeds. -/
def envA : Env :=
  { projectRoot := "/proj"
    referencesText := some "server_datasheet=/data/sheet\n"
    patchDirExists := true
    walkFiles := ["02-evolutions.yaml", "01-items.yaml"]
    specText := fun rel =>
      if rel = "01-items.yaml" then "items:\n  - id: 1\n"
      else "evolutions:\n  - id: 2\n"
    run := fun cmd =>
      if cmd.contains "reforged/specs/patches/p1/02-evolutions.yaml" then
        { returncode := 1, stdout := "", stderr := "boom" }
      else
        { returncode := 0, stdout := "Applied 1 operations", stderr := "" } }

/-- `envA` with every external invocation succeeding (used for dry-run
invariance). -/
def envC8 : Env :=
  { envA with run := fun _ => { returncode := 0, stdout := "", stderr := "" } }

/-- `envA` with a missing patch directory. -/
def envC9 : Env :=
  { envA with patchDirExists := false }

/-- A constant failing tool, with blank stderr and padded stdout. -/
def runC7 : List String → ToolResult :=
  fun _ => { returncode := 2, stdout := "  some error  ", stderr := " " }

/-!
The claims.
-/

/-- C1, counterexample: a run that reaches the apply phase, in which one
spec's apply invocation exits non-zero, every other invocation (including
sync) succeeds, and the process exits 0 — contradicting the claim that the
exit code is non-zero whenever any spec failed to apply. -/
theorem C1_counterexample :
    reachesApplyPhase envA = true ∧ (mainRun envA argsRun).failed = 1 ∧
      (mainRun envA argsRun).exitCode = 0 := by
  refine ⟨by decide, by decide, by decide⟩

/-- C1 (amended): for every run that reaches the apply phase, the exit code
is determined solely by the sync step — it is non-zero iff sync was required
(not skipped and a non-empty target set) and the sync invocation exited
non-zero; apply failures do not affect it. -/
theorem C1_exit_code (env : Env) (args : Args)
    (h : reachesApplyPhase env = true) :
    ((mainRun env args).exitCode ≠ 0 ↔
      (args.skip_sync = false ∧ syncTargets env ≠ [] ∧
        (env.run (syncCmdFor env args)).returncode ≠ 0)) := by
  rw [mainRun_exitCode env args h]
  split
  · next hc => simpa using hc
  · next hc => simpa using hc

/-- Witness for C1: the amended characterization evaluated on the concrete
world `envA` with sync skipped. -/
theorem C1_witness :
    ((mainRun envA argsSkip).exitCode ≠ 0 ↔
      (argsSkip.skip_sync = false ∧ syncTargets envA ≠ [] ∧
        (envA.run (syncCmdFor envA argsSkip)).returncode ≠ 0)) :=
  C1_exit_code envA argsSkip (by decide)

/-- C2: spec discovery returns exactly the files ending in `.yaml`, sorted
lexicographically by relative path, independently of the filesystem
enumeration order (and hence deterministic across repeated invocations on
the same tree). -/
theorem C2_discover_specs (l1 l2 : List String) (h : l1.Perm l2) :
    discover_specs l1 = discover_specs l2 ∧
    (∀ f, f ∈ discover_specs l1 ↔ f ∈ l1 ∧ pyEndsWith f ".yaml" = true) ∧
    List.Sorted strLeR (discover_specs l1) :=
  ⟨discover_specs_perm_invariant h, fun _ => discover_specs_mem,
    discover_specs_sorted l1⟩

/-- Witness for C2 on two concrete enumerations of the same tree. -/
theorem C2_witness :
    discover_specs ["b.yaml", "x.txt", "a/c.yaml"] =
        discover_specs ["a/c.yaml", "b.yaml", "x.txt"] ∧
    (∀ f, f ∈ discover_specs ["b.yaml", "x.txt", "a/c.yaml"] ↔
        f ∈ (["b.yaml", "x.txt", "a/c.yaml"] : List String) ∧
          pyEndsWith f ".yaml" = true) ∧
    List.Sorted strLeR (discover_specs ["b.yaml", "x.txt", "a/c.yaml"]) :=
  C2_discover_specs _ _ (by decide)

/-- C3: the entity detector returns exactly the names of the fixed
vocabulary that occur at the start of some line immediately followed by a
colon (indented occurrences do not start the line, so they are not
returned; the detector is a pure function of the text). -/
theorem C3_detect_entities (text e : String) :
    e ∈ detect_entities text ↔
      (e ∈ entityKeys ∧
        ∃ line ∈ pySplitLines text, pyStartsWith line (e ++ ":") = true) := by
  rw [detect_entities_mem]
  constructor
  · rintro ⟨line, hl, hm⟩
    obtain ⟨hk, hp⟩ := entityKeyMatch_eq_some.mp hm
    exact ⟨hk, line, hl, hp⟩
  · rintro ⟨hk, line, hl, hp⟩
    exact ⟨line, hl, entityKeyMatch_eq_some.mpr ⟨hk, hp⟩⟩

/-- Witness for C3 on a concrete spec text with one top-level and one
indented key. -/
theorem C3_witness :
    ("items" ∈ detect_entities "items:\n  equipment: 1\n" ↔
      ("items" ∈ entityKeys ∧
        ∃ line ∈ pySplitLines "items:\n  equipment: 1\n",
          pyStartsWith line ("items" ++ ":") = true)) :=
  C3_detect_entities "items:\n  equipment: 1\n" "items"

/-- C4: the entity keys detected in every discovered spec are included in
the run's accumulated entity-key union, with no assumption whatsoever on the
outcome of the apply invocations. -/
theorem C4_entities_recorded (env : Env) (args : Args)
    (h : reachesApplyPhase env = true) (spec : String)
    (hs : spec ∈ discover_specs env.walkFiles) (e : String)
    (he : e ∈ detect_entities (env.specText spec)) :
    e ∈ (mainRun env args).all_entity_keys := by
  rw [mainRun_entities env args h]
  exact allDetectedKeys_mem.mpr ⟨spec, hs, he⟩

/-- Witness for C4: in the concrete world `envA` the apply invocation of
`02-evolutions.yaml` fails, yet its detected key `evolutions` is in the
run's union. -/
theorem C4_witness :
    (toolOutcome (envA.run (applyCmdFor envA argsRun "02-evolutions.yaml"))).1 = false ∧
    "evolutions" ∈ (mainRun envA argsRun).all_entity_keys :=
  ⟨by decide,
    C4_entities_recorded envA argsRun (by decide) "02-evolutions.yaml"
      (by decide) "evolutions" (by decide)⟩

/-- C5: the apply tool is invoked exactly once per discovered spec, in
discovery order, regardless of failures, and the (at most one) sync
invocation comes strictly after all of them. -/
theorem C5_apply_order (env : Env) (args : Args)
    (h : reachesApplyPhase env = true) :
    (mainRun env args).calls =
      (discover_specs env.walkFiles).map
        (fun rel => Call.applyCall (applyCmdFor env args rel)) ++
      (if args.skip_sync = false ∧ syncTargets env ≠ [] then
        [Call.syncCall (syncCmdFor env args)]
      else []) :=
  mainRun_calls env args h

/-- Witness for C5 on the concrete world `envA` (one failing spec, sync
enabled). -/
theorem C5_witness :
    (mainRun envA argsRun).calls =
      (discover_specs envA.walkFiles).map
        (fun rel => Call.applyCall (applyCmdFor envA argsRun rel)) ++
      (if argsRun.skip_sync = false ∧ syncTargets envA ≠ [] then
        [Call.syncCall (syncCmdFor envA argsRun)]
      else []) :=
  C5_apply_order envA argsRun (by decide)

theorem countSyncCalls_append (a b : List Call) :
    countSyncCalls (a ++ b) = countSyncCalls a + countSyncCalls b := by
  unfold countSyncCalls
  rw [List.filter_append, List.length_append]

theorem countSyncCalls_applyCalls (L : List String) (f : String → List String) :
    countSyncCalls (L.map (fun rel => Call.applyCall (f rel))) = 0 := by
  induction L with
  | nil => rfl
  | cons a l ih => simp [countSyncCalls, List.filter_cons]

/-- C6: the sync tool is invoked exactly once iff `--skip-sync` was not
requested and the syncable-target set is non-empty, and zero times
otherwise; skipping and the empty target set each print an explicit
report. -/
theorem C6_sync_once (env : Env) (args : Args)
    (h : reachesApplyPhase env = true) :
    countSyncCalls (mainRun env args).calls =
        (if args.skip_sync = false ∧ syncTargets env ≠ [] then 1 else 0) ∧
    (args.skip_sync = true →
      "\nSync skipped (--skip-sync)" ∈ (mainRun env args).printed) ∧
    (args.skip_sync = false → syncTargets env = [] →
      "\nNo syncable entities — nothing to sync" ∈ (mainRun env args).printed) := by
  refine ⟨?_, ?_, ?_⟩
  · rw [mainRun_calls env args h, countSyncCalls_append,
      countSyncCalls_applyCalls]
    split
    · rfl
    · rfl
  · intro hs
    rw [mainRun_eq_phases env args h]
    exact syncPhase_printed_skip _ _ _ _ hs
  · intro hs hts
    rw [mainRun_eq_phases env args h]
    apply syncPhase_printed_nothing _ _ _ _ hs
    rw [applyPhase_entities]
    exact hts

/-- Witness for C6 on the concrete world `envA` with sync skipped. -/
theorem C6_witness :
    countSyncCalls (mainRun envA argsSkip).calls =
        (if argsSkip.skip_sync = false ∧ syncTargets envA ≠ [] then 1 else 0) ∧
    (argsSkip.skip_sync = true →
      "\nSync skipped (--skip-sync)" ∈ (mainRun envA argsSkip).printed) ∧
    (argsSkip.skip_sync = false → syncTargets envA = [] →
      "\nNo syncable entities — nothing to sync" ∈ (mainRun envA argsSkip).printed) :=
  C6_sync_once envA argsSkip (by decide)

/-- C7: an apply invocation succeeds iff the subprocess exit status is zero;
on a non-zero exit status the error message is the stripped stderr if
non-empty, else the stripped stdout if non-empty, else `"Unknown error"`. -/
theorem C7_apply_outcome (run : List String → ToolResult)
    (dsl_cli rel_path server_datasheet : String) (dry_run : Bool) :
    ((apply_spec run dsl_cli rel_path server_datasheet dry_run).2.1 = true ↔
      (run (applyCmdOf dsl_cli rel_path server_datasheet dry_run)).returncode = 0) ∧
    ((run (applyCmdOf dsl_cli rel_path server_datasheet dry_run)).returncode ≠ 0 →
      (apply_spec run dsl_cli rel_path server_datasheet dry_run).2.2 =
        (if pyStrip (run (applyCmdOf dsl_cli rel_path server_datasheet dry_run)).stderr ≠ "" then
          pyStrip (run (applyCmdOf dsl_cli rel_path server_datasheet dry_run)).stderr
        else if pyStrip (run (applyCmdOf dsl_cli rel_path server_datasheet dry_run)).stdout ≠ "" then
          pyStrip (run (applyCmdOf dsl_cli rel_path server_datasheet dry_run)).stdout
        else "Unknown error")) :=
  ⟨toolOutcome_fst _, fun hrc => toolOutcome_snd _ hrc⟩

/-- Witness for C7: a concrete failing tool whose stderr strips to empty and
whose stdout strips to `"some error"`; the reported message is that stripped
stdout. -/
theorem C7_witness :
    (((apply_spec runC7 "dsl" "spec.yaml" "/data" false).2.1 = true ↔
      (runC7 (applyCmdOf "dsl" "spec.yaml" "/data" false)).returncode = 0) ∧
    ((runC7 (applyCmdOf "dsl" "spec.yaml" "/data" false)).returncode ≠ 0 →
      (apply_spec runC7 "dsl" "spec.yaml" "/data" false).2.2 =
        (if pyStrip (runC7 (applyCmdOf "dsl" "spec.yaml" "/data" false)).stderr ≠ "" then
          pyStrip (runC7 (applyCmdOf "dsl" "spec.yaml" "/data" false)).stderr
        else if pyStrip (runC7 (applyCmdOf "dsl" "spec.yaml" "/data" false)).stdout ≠ "" then
          pyStrip (runC7 (applyCmdOf "dsl" "spec.yaml" "/data" false)).stdout
        else "Unknown error"))) ∧
    (apply_spec runC7 "dsl" "spec.yaml" "/data" false).2.2 = "some error" :=
  ⟨C7_apply_outcome runC7 "dsl" "spec.yaml" "/data" false, by decide⟩

/-- C8: with identical external-tool results, a run with `--dry-run` takes
the same control flow as the run without: same exit code, same counters and
per-spec outcomes, same entity-key union, and the same invocations in the
same order except that every command line additionally carries
`--dry-run`. -/
theorem C8_dry_run_invariance (env : Env) (args : Args)
    (hrun : ∀ cmd, env.run (cmd ++ ["--dry-run"]) = env.run cmd) :
    (mainRun env { args with dry_run := true }).exitCode =
      (mainRun env { args with dry_run := false }).exitCode ∧
    (mainRun env { args with dry_run := true }).applied =
      (mainRun env { args with dry_run := false }).applied ∧
    (mainRun env { args with dry_run := true }).failed =
      (mainRun env { args with dry_run := false }).failed ∧
    (mainRun env { args with dry_run := true }).failed_specs =
      (mainRun env { args with dry_run := false }).failed_specs ∧
    (mainRun env { args with dry_run := true }).all_entity_keys =
      (mainRun env { args with dry_run := false }).all_entity_keys ∧
    (mainRun env { args with dry_run := true }).calls =
      (mainRun env { args with dry_run := false }).calls.map pushDry := by
  cases hreach : reachesApplyPhase env with
  | true =>
    rw [mainRun_eq_phases env _ hreach, mainRun_eq_phases env _ hreach]
    exact syncPhase_dry env args (dslCliOf env) _ _
      (applyPhase_dry env args (dslCliOf env) ((serverDatasheetOf env).getD "")
        (discover_specs env.walkFiles) _ _ hrun) hrun
  | false =>
    have heq := mainRun_indep_args_not_reach env { args with dry_run := true }
      { args with dry_run := false } rfl hreach
    have hcalls := mainRun_not_reach_calls env { args with dry_run := false } hreach
    rw [heq]
    refine ⟨rfl, rfl, rfl, rfl, rfl, ?_⟩
    rw [hcalls]
    rfl

/-- Witness for C8 on the concrete world `envC8`, whose tool results are
independent of the command line. -/
theorem C8_witness :
    (mainRun envC8 { argsRun with dry_run := true }).exitCode =
      (mainRun envC8 { argsRun with dry_run := false }).exitCode ∧
    (mainRun envC8 { argsRun with dry_run := true }).applied =
      (mainRun envC8 { argsRun with dry_run := false }).applied ∧
    (mainRun envC8 { argsRun with dry_run := true }).failed =
      (mainRun envC8 { argsRun with dry_run := false }).failed ∧
    (mainRun envC8 { argsRun with dry_run := true }).failed_specs =
      (mainRun envC8 { argsRun with dry_run := false }).failed_specs ∧
    (mainRun envC8 { argsRun with dry_run := true }).all_entity_keys =
      (mainRun envC8 { argsRun with dry_run := false }).all_entity_keys ∧
    (mainRun envC8 { argsRun with dry_run := true }).calls =
      (mainRun envC8 { argsRun with dry_run := false }).calls.map pushDry :=
  C8_dry_run_invariance envC8 argsRun (fun _ => rfl)

/-- C9: a missing references file, a missing `server_datasheet` key, a
missing patch directory, or an empty spec set each make the run fail with
exit status 1 before any external tool is invoked; the latter two print
their configuration-error report. -/
theorem C9_preflight (env : Env) (args : Args)
    (h : env.referencesText = none ∨ serverDatasheetOf env = none ∨
      env.patchDirExists = false ∨ discover_specs env.walkFiles = []) :
    (mainRun env args).exitCode = 1 ∧ (mainRun env args).calls = [] ∧
    (env.referencesText ≠ none → serverDatasheetOf env ≠ none →
      env.patchDirExists = false →
      (mainRun env args).printed =
        ["Error: Patch directory not found: " ++
          (env.projectRoot ++ "/reforged/specs/patches/" ++ args.patch)]) ∧
    (env.referencesText ≠ none → serverDatasheetOf env ≠ none →
      env.patchDirExists = true → discover_specs env.walkFiles = [] →
      (mainRun env args).printed =
        ["Error: No .yaml specs found in " ++
          (env.projectRoot ++ "/reforged/specs/patches/" ++ args.patch)]) := by
  cases href : env.referencesText with
  | none =>
    rw [mainRun_refs_missing env args href]
    refine ⟨rfl, rfl, ?_, ?_⟩
    · intro hne _ _
      exact absurd rfl hne
    · intro hne _ _ _
      exact absurd rfl hne
  | some t =>
    have hsd0 : serverDatasheetOf env =
        refsGet? (load_references t) "server_datasheet" := by
      unfold serverDatasheetOf
      rw [href]
      rfl
    cases hsd : refsGet? (load_references t) "server_datasheet" with
    | none =>
      rw [mainRun_sd_missing env args href hsd]
      refine ⟨rfl, rfl, ?_, ?_⟩
      · intro _ hne _
        exact absurd (hsd0.trans hsd) hne
      · intro _ hne _ _
        exact absurd (hsd0.trans hsd) hne
    | some sd =>
      cases hdir : env.patchDirExists with
      | false =>
        rw [mainRun_no_patch_dir env args href hsd hdir]
        refine ⟨rfl, rfl, ?_, ?_⟩
        · intro _ _ _
          rfl
        · intro _ _ hdirT _
          simp at hdirT
      | true =>
        cases hspecs : discover_specs env.walkFiles with
        | cons a l =>
          exfalso
          rcases h with h | h | h | h
          · rw [href] at h
            exact Option.noConfusion h
          · rw [hsd0, hsd] at h
            exact Option.noConfusion h
          · rw [hdir] at h
            simp at h
          · rw [hspecs] at h
            exact List.noConfusion h
        | nil =>
          rw [mainRun_no_specs env args href hsd hdir hspecs]
          refine ⟨rfl, rfl, ?_, ?_⟩
          · intro _ _ hdirF
            simp at hdirF
          · intro _ _ _ _
            rfl

/-- Witness for C9 on the concrete world `envC9`, whose patch directory is
missing. -/
theorem C9_witness :
    (mainRun envC9 argsRun).exitCode = 1 ∧ (mainRun envC9 argsRun).calls = [] ∧
    (envC9.referencesText ≠ none → serverDatasheetOf envC9 ≠ none →
      envC9.patchDirExists = false →
      (mainRun envC9 argsRun).printed =
        ["Error: Patch directory not found: " ++
          (envC9.projectRoot ++ "/reforged/specs/patches/" ++ argsRun.patch)]) ∧
    (envC9.referencesText ≠ none → serverDatasheetOf envC9 ≠ none →
      envC9.patchDirExists = true → discover_specs envC9.walkFiles = [] →
      (mainRun envC9 argsRun).printed =
        ["Error: No .yaml specs found in " ++
          (envC9.projectRoot ++ "/reforged/specs/patches/" ++ argsRun.patch)]) :=
  C9_preflight envC9 argsRun (Or.inr (Or.inr (Or.inl (by decide))))

/-- C10: every name the detector can return is a key of `ENTITY_SYNC_MAP`
(the detection pattern is built from exactly those keys), so the
detected-but-unmapped set is empty on every input and the membership guards
of the partition never exclude anything. -/
theorem C10_detected_mapped (text : String) :
    (∀ e ∈ detect_entities text, (entitySyncLookup e).isSome = true) ∧
    (detect_entities text).filter (fun e => (entitySyncLookup e).isNone) = [] ∧
    (detect_entities text).filter (fun e => (entitySyncLookup e).isSome) =
      detect_entities text := by
  have hmem : ∀ e ∈ detect_entities text, e ∈ entityKeys := by
    intro e he
    obtain ⟨line, _, hm⟩ := detect_entities_mem.mp he
    exact (entityKeyMatch_eq_some.mp hm).1
  have hsome : ∀ e ∈ entityKeys, (entitySyncLookup e).isSome = true := by
    intro e he
    fin_cases he <;> decide
  refine ⟨?_, ?_, ?_⟩
  · intro e he
    exact hsome e (hmem e he)
  · rw [List.filter_eq_nil_iff]
    intro e he
    have := hsome e (hmem e he)
    obtain ⟨v, hv⟩ := Option.isSome_iff_exists.mp this
    simp [hv]
  · rw [List.filter_eq_self]
    intro e he
    exact hsome e (hmem e he)

/-- Witness for C10 on a concrete text mixing known and unknown keys. -/
theorem C10_witness :
    (∀ e ∈ detect_entities "items:\nunknownKey:\nenchants:\n",
      (entitySyncLookup e).isSome = true) ∧
    (detect_entities "items:\nunknownKey:\nenchants:\n").filter
        (fun e => (entitySyncLookup e).isNone) = [] ∧
    (detect_entities "items:\nunknownKey:\nenchants:\n").filter
        (fun e => (entitySyncLookup e).isSome) =
      detect_entities "items:\nunknownKey:\nenchants:\n" :=
  C10_detected_mapped "items:\nunknownKey:\nenchants:\n"
